import Mathlib

/-!
Shallow embedding of the WhatsApp-lead dashboard front end.

The embedded code is the lead chat page (fetchMessages normalization,
visit-banner resolution, manual reply submission), the analytics
insights helpers of the dashboard page, and the visit-booking modal
submission.  Dynamic JSON values manipulated by the client after
JSON.parse are modelled by an explicit `Json` type together with the
JavaScript property-access, truthiness and nullish-coalescing rules the
code relies on.  Each fetch handler is embedded as a pure step function
from the component state and the resolved outcome of the network round
trip to the next component state, mirroring the handler's setState
calls branch by branch.
-/

/-- JSON values as delivered by the backend: the dynamic values the
client code manipulates after JSON.parse.  Numbers are modelled as
integers (all payload numbers used by the embedded code are counts and
ids). -/
inductive Json where
  | null : Json
  | bool : Bool → Json
  | num : Int → Json
  | str : String → Json
  | arr : List Json → Json
  | obj : List (String × Json) → Json

/-- JavaScript property access `v.k` on a dynamic value: `none` models
the `undefined` result (non-object receivers and absent keys); for
duplicate keys JSON.parse keeps the last occurrence, hence the reversed
search. -/
def Json.getProp : Json → String → Option Json
  | .obj fs, k => (fs.reverse.find? (fun p => p.1 == k)).map (fun p => p.2)
  | _, _ => none

/-- JavaScript truthiness of a parsed JSON value (`null`, `false`, `0`
and the empty string are falsy; arrays and objects are always
truthy). -/
def Json.truthy : Json → Bool
  | .null => false
  | .bool b => b
  | .num n => n != 0
  | .str s => s != ""
  | .arr _ => true
  | .obj _ => true

/-- Whether the value is an array: model of Array.isArray on a parsed
value (`none` stands for `undefined`, which is not an array). -/
def jsIsArray : Option Json → Bool
  | some (.arr _) => true
  | _ => false

/-- Collapse a JS value (`none` = `undefined`) to `none` when it is
nullish, modelling the left-hand test of the ?? operator. -/
def jsNN : Option Json → Option Json
  | some .null => none
  | o => o

/-- Truthiness of a possibly-undefined JS value (`undefined` is
falsy). -/
def jsTruthyOpt : Option Json → Bool
  | some v => v.truthy
  | none => false

/-- The value of `v?.length === 0` used by the (unreachable) fallback
branch of the normalizer: only arrays and strings have a numeric
length; on a nullish receiver the optional chain yields `undefined`,
which is not `=== 0`. -/
def jsLenZero : Option Json → Bool
  | some (.arr xs) => xs.isEmpty
  | some (.str s) => s.data.isEmpty
  | _ => false

/-- Strict-equality test `v === undefined` on a possibly-undefined JS
value. -/
def isUndefined : Option Json → Bool
  | none => true
  | some _ => false

/-- Strict-equality test `v === null` on a possibly-undefined JS
value. -/
def isNullVal : Option Json → Bool
  | some .null => true
  | _ => false

/-- Strict-equality test `v === cur` between a possibly-undefined JS
value and a string: true exactly when the value is that string. -/
def jsStrEq (o : Option Json) (cur : String) : Bool :=
  match o with
  | some (.str s) => s == cur
  | _ => false

mutual

/-- String() coercion of a dynamic value, as applied by the Error
constructor to a non-string argument: arrays join their elements with
commas (nulls becoming empty), objects print as [object Object]. -/
def jsToString : Json → String
  | .null => "null"
  | .bool true => "true"
  | .bool false => "false"
  | .num n => toString n
  | .str s => s
  | .arr xs => jsJoinComma xs
  | .obj _ => "[object Object]"

/-- Comma join used by array-to-string coercion (Array.prototype.join
maps null elements to the empty string). -/
def jsJoinComma : List Json → String
  | [] => ""
  | [.null] => ""
  | [x] => jsToString x
  | .null :: xs => "," ++ jsJoinComma xs
  | x :: xs => jsToString x ++ "," ++ jsJoinComma xs

end

/-- JavaScript whitespace characters recognised by
String.prototype.trim (the code points exercised by chat input:
space, tab, newline, carriage return, vertical tab, form feed,
no-break space and the BOM). -/
def jsWhitespace (c : Char) : Bool :=
  c == ' ' || c == '\t' || c == '\n' || c == '\r' ||
  c == Char.ofNat 11 || c == Char.ofNat 12 ||
  c == Char.ofNat 160 || c == Char.ofNat 65279

/-- Model of String.prototype.trim: strip leading and trailing
JavaScript whitespace. -/
def jsTrim (s : String) : String :=
  String.mk (((s.data.dropWhile jsWhitespace).reverse.dropWhile jsWhitespace).reverse)

/-- Normalized lead-conversation structure: the runtime shape of the
value stored by setLead in the chat page.  The fields keep the dynamic
values the code actually puts there (the backend may ship a non-string
leadId or a non-array messages value and the code stores them
unchanged); `name := none` models the `undefined` name. -/
structure LeadData where
  leadId : Json
  name : Option Json
  messages : Json

/-- One visit record in the shape the chat page declares: the lead
reference may arrive as a bare identifier string or as a populated
object, so it is kept as a dynamic value (`none` = absent). -/
structure Visit where
  _id : String
  date : String
  timeSlot : String
  visitStatus : String
  familyComing : Option Bool
  pickupRequired : Option Bool
  notes : Option String
  leadId : Option Json

/-- State of the lead chat page that the embedded handlers read and
write: current lead plus messages, loading and error indicators, the
reply input box and sending flag, the visit banner and the modal
flag. -/
structure PageState where
  lead : Option LeadData
  loading : Bool
  error : Option String
  input : String
  sending : Bool
  latestVisit : Option Visit
  showVisitModal : Bool

/-- Outcome of the messages-endpoint round trip as observed by
fetchMessages: the raw body text is empty (parsed as null), fails
JSON.parse, parses to a value, or the fetch itself rejects with a
network error carrying a message. -/
inductive MsgResponse where
  | empty : MsgResponse
  | invalid : MsgResponse
  | parsed : Json → MsgResponse
  | netError : String → MsgResponse

/-- The probe `data.data?.messages` used by the last normalization
branch: `undefined` when `data.data` is nullish, otherwise that
object's messages property. -/
def dataDataMessages (data : Json) : Option Json :=
  match jsNN (data.getProp "data") with
  | none => none
  | some dd => dd.getProp "messages"

/-- The `data.name ?? data.leadName ?? data.name` chain of the
wrapped-object branch of the normalizer. -/
def nameField (data : Json) : Option Json :=
  match jsNN (data.getProp "name") with
  | some v => some v
  | none =>
    match jsNN (data.getProp "leadName") with
    | some v => some v
    | none => data.getProp "name"

/-- Defensive normalization of a parsed messages payload performed by
fetchMessages, mirrored branch by branch: falsy data normalizes to
null; a value with an array messages property is taken as the wrapped
shape; a bare array is treated as the message list itself; the
contradictory fallback test of the source (messages both undefined and
null) is kept verbatim and is never true; otherwise the messages value
is searched with `data.messages ?? data.data?.messages ?? []`. -/
def normalizeLead (leadId : String) (data : Json) : Option LeadData :=
  if data.truthy = false then
    none
  else if jsIsArray (data.getProp "messages") then
    some { leadId := (jsNN (data.getProp "leadId")).getD (.str leadId)
           name := nameField data
           messages := (data.getProp "messages").getD .null }
  else if jsIsArray (some data) then
    some { leadId := .str leadId
           name := none
           messages := data }
  else if isUndefined (data.getProp "messages")
          && isNullVal (data.getProp "messages")
          && jsLenZero (data.getProp "messages") then
    some { leadId := .str leadId
           name := jsNN (data.getProp "name")
           messages := .arr [] }
  else
    some { leadId := (jsNN (data.getProp "leadId")).getD (.str leadId)
           name := jsNN (data.getProp "name")
           messages := (jsNN (data.getProp "messages")).getD
             ((jsNN (dataDataMessages data)).getD (.arr [])) }

/-- One resolved round of fetchMessages applied to the page state: the
guard on a missing lead id, then setLoading(true), setError(null),
body read, JSON.parse, normalization and setLead on success; the
thrown parse error or fetch rejection is caught and converted into the
view-local error string, with setLoading(false) in the finally
block. -/
def fetchMessagesStep (leadId : String) (s : PageState) (r : MsgResponse) : PageState :=
  if leadId = "" then s
  else
    match r with
    | .empty => { s with lead := none, error := none, loading := false }
    | .invalid => { s with error := some "Invalid JSON from messages endpoint", loading := false }
    | .parsed data => { s with lead := normalizeLead leadId data, error := none, loading := false }
    | .netError m =>
        { s with error := some (if m = "" then "Failed to load messages" else m), loading := false }

/-- Digit value of a character, `none` when it is not a decimal
digit. -/
def digitVal (c : Char) : Option Nat :=
  if c.isDigit then some (c.toNat - 48) else none

/-- Leap-year test of the proleptic Gregorian calendar. -/
def isLeap (y : Nat) : Bool :=
  (y % 4 == 0 && y % 100 != 0) || y % 400 == 0

/-- Number of days of a month (1 to 12) in year y. -/
def daysInMonth (y mo : Nat) : Nat :=
  if mo = 2 then (if isLeap y then 29 else 28)
  else if mo = 4 ∨ mo = 6 ∨ mo = 9 ∨ mo = 11 then 30
  else 31

/-- Days from the Unix epoch to the civil date y-mo-da (standard
civil-from-days inversion over eras of 400 years). -/
def daysFromCivil (y mo da : Nat) : Int :=
  let yi : Int := if mo ≤ 2 then (y : Int) - 1 else (y : Int)
  let era : Int := (if 0 ≤ yi then yi else yi - 399) / 400
  let yoe : Int := yi - era * 400
  let mp : Int := ((mo : Int) + 9) % 12
  let doy : Int := (153 * mp + 2) / 5 + (da : Int) - 1
  let doe : Int := yoe * 365 + yoe / 4 - yoe / 100 + doy
  era * 146097 + doe - 719468

/-- The YYYY-MM-DD date part of an ISO date string: the epoch days of
the named calendar day, or `none` when the characters are not a valid
calendar date. -/
def parseDateDays (y1 y2 y3 y4 h1 m1 m2 h2 d1 d2 : Char) : Option Int :=
  if h1 = '-' ∧ h2 = '-' then
    match digitVal y1, digitVal y2, digitVal y3, digitVal y4,
          digitVal m1, digitVal m2, digitVal d1, digitVal d2 with
    | some a, some b, some c, some d, some e, some f, some g, some h =>
      let y := a * 1000 + b * 100 + c * 10 + d
      let mo := e * 10 + f
      let da := g * 10 + h
      if 1 ≤ mo ∧ mo ≤ 12 ∧ 1 ≤ da ∧ da ≤ daysInMonth y mo then
        some (daysFromCivil y mo da)
      else none
    | _, _, _, _, _, _, _, _ => none
  else none

/-- Two-digit decimal field of an ISO time part. -/
def twoDigits (a b : Char) : Option Nat :=
  match digitVal a, digitVal b with
  | some x, some y => some (x * 10 + y)
  | _, _ => none

/-- The UTC time-of-day part of an ISO datetime string, in
milliseconds: accepts HH:MM, HH:MM:SS and HH:MM:SS.sss, each with the
explicit UTC designator Z (the shape Date.prototype.toISOString
emits).  A time part without Z is parsed by the host as local time,
which depends on the host timezone, so it is outside the model and
yields `none`. -/
def parseTimeUTC : List Char → Option Int
  | [a1, a2, ':', b1, b2, 'Z'] =>
    match twoDigits a1 a2, twoDigits b1 b2 with
    | some h, some mi =>
      if h ≤ 23 ∧ mi ≤ 59 then some (3600000 * (h : Int) + 60000 * (mi : Int)) else none
    | _, _ => none
  | [a1, a2, ':', b1, b2, ':', c1, c2, 'Z'] =>
    match twoDigits a1 a2, twoDigits b1 b2, twoDigits c1 c2 with
    | some h, some mi, some se =>
      if h ≤ 23 ∧ mi ≤ 59 ∧ se ≤ 59 then
        some (3600000 * (h : Int) + 60000 * (mi : Int) + 1000 * (se : Int))
      else none
    | _, _, _ => none
  | [a1, a2, ':', b1, b2, ':', c1, c2, '.', e1, e2, e3, 'Z'] =>
    match twoDigits a1 a2, twoDigits b1 b2, twoDigits c1 c2,
          digitVal e1, digitVal e2, digitVal e3 with
    | some h, some mi, some se, some x, some y, some z =>
      if h ≤ 23 ∧ mi ≤ 59 ∧ se ≤ 59 then
        some (3600000 * (h : Int) + 60000 * (mi : Int) + 1000 * (se : Int)
          + (100 * (x : Int) + 10 * (y : Int) + (z : Int)))
      else none
    | _, _, _, _, _, _ => none
  | _ => none

/-- Model of Date.parse on the UTC ISO forms this application
produces and consumes: the date-only form YYYY-MM-DD (interpreted as
UTC midnight) and the full datetime forms YYYY-MM-DDTHH:MM[:SS[.sss]]Z
(the booking modal stores visit dates via toISOString, which emits the
last shape).  The result is the epoch milliseconds; any other string
(including host-local datetimes without the Z designator) is outside
the model and yields `none`. -/
def parseISODate (s : String) : Option Int :=
  match s.data with
  | y1 :: y2 :: y3 :: y4 :: h1 :: m1 :: m2 :: h2 :: d1 :: d2 :: rest =>
    match parseDateDays y1 y2 y3 y4 h1 m1 m2 h2 d1 d2 with
    | none => none
    | some days =>
      match rest with
      | [] => some (86400000 * days)
      | 'T' :: t =>
        match parseTimeUTC t with
        | some ms => some (86400000 * days + ms)
        | none => none
      | _ => none
  | _ => none

/-- The value `new Date(s).getTime()` the visit comparator feeds on.
For the modelled UTC ISO forms it is the real epoch-millisecond value;
any other string is given a fixed default, so the selection theorems
carry the hypothesis that every date of the collection parses. -/
def jsDateMs (s : String) : Int :=
  (parseISODate s).getD 0

/-- Order induced by the visit comparator
`(a, b) => new Date(b.date).getTime() - new Date(a.date).getTime()`:
a sorts no later than b exactly when the comparator value is at most
zero, i.e. descending scheduled date. -/
def visitAfter (a b : Visit) : Bool :=
  decide (jsDateMs b.date ≤ jsDateMs a.date)

/-- Insert into a sorted prefix, keeping the new element after earlier
equivalent ones is avoided by placing it as early as the order allows:
together with `stableSortBy` this realises the unique stable sort that
Array.prototype.sort produces for a consistent comparator. -/
def insertBy (le : α → α → Bool) (x : α) : List α → List α
  | [] => [x]
  | y :: ys => if le x y then x :: y :: ys else y :: insertBy le x ys

/-- Stable sort by a total comparator-induced order: model of
Array.prototype.sort, whose output for a consistent comparator is the
unique stable sorted permutation. -/
def stableSortBy (le : α → α → Bool) : List α → List α
  | [] => []
  | x :: xs => insertBy le x (stableSortBy le xs)

/-- Filter of the loadVisitBanner revision: keep a visit when its lead
reference is truthy and is either the bare identifier string equal to
the target or an object whose _id property is the target. -/
def visitMatches1 (cur : String) (v : Visit) : Bool :=
  match v.leadId with
  | none => false
  | some ref =>
    if ref.truthy = false then false
    else
      match ref with
      | .str s => s == cur
      | o => jsStrEq (o.getProp "_id") cur

/-- Filter of the fetchLatestVisit revision: as `visitMatches1`, but an
object reference may also match through its id property. -/
def visitMatches2 (cur : String) (v : Visit) : Bool :=
  match v.leadId with
  | none => false
  | some ref =>
    if ref.truthy = false then false
    else
      match ref with
      | .str s => s == cur
      | o => jsStrEq (o.getProp "_id") cur || jsStrEq (o.getProp "id") cur

/-- Selection performed by loadVisitBanner on a fetched visit
collection: filter to the target lead, null when nothing matches,
otherwise the head of the descending-date sort. -/
def loadVisitBannerSelect (cur : String) (vs : List Visit) : Option Visit :=
  let visitsForLead := vs.filter (visitMatches1 cur)
  if visitsForLead.isEmpty then none
  else (stableSortBy visitAfter visitsForLead).head?

/-- Selection performed by fetchLatestVisit on a fetched visit
collection: filter to the target lead, null when nothing matches,
otherwise the head of the descending-date sort. -/
def fetchLatestVisitSelect (cur : String) (vs : List Visit) : Option Visit :=
  let visitsForLead := vs.filter (visitMatches2 cur)
  if visitsForLead.isEmpty then none
  else (stableSortBy visitAfter visitsForLead).head?

/-- Outcome of the visits-endpoint round trip: a parsed visit
collection (a payload without a visits array arrives as the empty
collection via `data?.visits ?? []`), a body that fails res.json(), a
non-success HTTP status, or a network error. -/
inductive VisitResponse where
  | ok : List Visit → VisitResponse
  | parseError : VisitResponse
  | httpError : Nat → VisitResponse
  | netError : String → VisitResponse

/-- One resolved round of loadVisitBanner: on success the banner state
is replaced by the selected visit (null when none matches); a
non-success status returns after logging, and a thrown parse or
network error is caught and logged, in all three cases leaving the
state untouched. -/
def loadVisitBannerStep (cur : String) (s : PageState) (r : VisitResponse) : PageState :=
  match r with
  | .ok vs => { s with latestVisit := loadVisitBannerSelect cur vs }
  | .parseError => s
  | .httpError _ => s
  | .netError _ => s

/-- One resolved round of fetchLatestVisit: as `loadVisitBannerStep`
with the added guard on an empty lead id and the wider reference
filter. -/
def fetchLatestVisitStep (cur : String) (s : PageState) (r : VisitResponse) : PageState :=
  if cur = "" then s
  else
    match r with
    | .ok vs => { s with latestVisit := fetchLatestVisitSelect cur vs }
    | .parseError => s
    | .httpError _ => s
    | .netError _ => s

/-- Outcome of the reply POST issued by handleSend: a success response
(body text only logged), a non-success HTTP status, or a network
error. -/
inductive SendResponse where
  | ok : String → SendResponse
  | httpError : Nat → SendResponse
  | netError : String → SendResponse
  deriving DecidableEq

/-- Result of one handleSend invocation: the page state it leaves
behind, whether the reply POST was issued at all, and how many
conversation re-fetches it triggered. -/
structure SendResult where
  state : PageState
  replyRequested : Bool
  refetchCount : Nat

/-- One resolved run of handleSend: trimmed-empty input or a missing
lead id returns before any request; otherwise the POST is issued with
the sending flag held, a non-success status surfaces the send error
and keeps the input, a network error surfaces its message, and a
success clears the input and awaits exactly one fetchMessages round
(whose outcome is the `refetch` argument); the finally block drops the
sending flag. -/
def handleSendStep (leadId : String) (s : PageState) (r : SendResponse)
    (refetch : MsgResponse) : SendResult :=
  let text := jsTrim s.input
  if text = "" ∨ leadId = "" then
    { state := s, replyRequested := false, refetchCount := 0 }
  else
    match r with
    | .ok _ =>
        let s1 := fetchMessagesStep leadId { s with sending := true, input := "" } refetch
        { state := { s1 with sending := false }, replyRequested := true, refetchCount := 1 }
    | .httpError status =>
        { state := { s with sending := false
                            error := some ("Send failed: " ++ toString status) }
          replyRequested := true, refetchCount := 0 }
    | .netError m =>
        { state := { s with sending := false
                            error := some (if m = "" then "Send failed" else m) }
          replyRequested := true, refetchCount := 0 }

/-- Aggregate metrics object of the analytics summary consumed by the
dashboard (raw counts; the precomputed conversionRate is carried
along unused by the insights helpers). -/
structure Metrics where
  totalLeads : Nat
  hotLeads : Nat
  warmLeads : Nat
  coldLeads : Nat
  fakeLeads : Nat
  convertedLeads : Nat
  conversionRate : Int
  followupsSent : Nat
  followupsScheduled : Nat
  whatsappIn : Nat
  whatsappOutAI : Nat
  stageChanges : Nat
  deriving DecidableEq

/-- Math.round of the exact ratio (a / b) * 100 for counts, i.e. round
half away from zero upward (half toward positive infinity), as the
display helpers compute it. -/
def roundPct (a b : Nat) : Nat :=
  (200 * a + b) / (2 * b)

/-- The hotShare value of the insights tab: hot leads out of all
leads, guarded to the literal 0% on a zero denominator. -/
def hotShare (m : Metrics) : String :=
  if m.totalLeads > 0 then toString (roundPct m.hotLeads m.totalLeads) ++ "%" else "0%"

/-- The fakeRate value of the insights tab: fake leads out of all
leads, guarded to the literal 0% on a zero denominator. -/
def fakeRate (m : Metrics) : String :=
  if m.totalLeads > 0 then toString (roundPct m.fakeLeads m.totalLeads) ++ "%" else "0%"

/-- The aiReplyCoverage value of the insights tab: AI replies out of
incoming messages, guarded to the literal 0% on a zero
denominator. -/
def aiReplyCoverage (m : Metrics) : String :=
  if m.whatsappIn > 0 then toString (roundPct m.whatsappOutAI m.whatsappIn) ++ "%" else "0%"

/-- Form state of the visit-booking modal at submission time. -/
structure BookingForm where
  date : String
  timeSlot : String
  familyComing : Bool
  pickupRequired : Bool
  notes : String
  deriving DecidableEq

/-- Outcome of the booking POST: an HTTP response with its ok flag,
status and parsed JSON body (`none` when the body fails res.json(),
which the code coerces to the empty object), or a network error. -/
inductive BookResponse where
  | resp : Bool → Nat → Option Json → BookResponse
  | netError : String → BookResponse

/-- Result of one visit-booking submission: the surfaced error if any,
whether the POST was issued, and whether onSuccess was invoked. -/
structure BookingResult where
  error : Option String
  requested : Bool
  succeeded : Bool
  deriving DecidableEq

/-- One resolved run of the modal's handleSubmit: an empty date or
time slot is rejected locally with a fixed message and no request;
otherwise the POST is issued, a non-ok status or a body whose ok field
is not truthy raises the backend-provided error string (with the
status fallback), a network error surfaces its message, and only an
ok status together with a truthy body ok field invokes onSuccess. -/
def handleSubmitStep (f : BookingForm) (r : BookResponse) : BookingResult :=
  if f.date = "" ∨ f.timeSlot = "" then
    { error := some "Please pick a date and time slot.", requested := false, succeeded := false }
  else
    match r with
    | .netError m =>
        { error := some (if m = "" then "Failed to book visit" else m)
          requested := true, succeeded := false }
    | .resp ok status body =>
        let data := body.getD (.obj [])
        if ok = false ∨ jsTruthyOpt (data.getProp "ok") = false then
          let raw :=
            match data.getProp "error" with
            | some v =>
                if v.truthy then jsToString v
                else "Booking failed (" ++ toString status ++ ")"
            | none => "Booking failed (" ++ toString status ++ ")"
          { error := some (if raw = "" then "Failed to book visit" else raw)
            requested := true, succeeded := false }
        else
          { error := none, requested := true, succeeded := true }

/-! Helper lemmas shared by the claim theorems. -/

theorem insertBy_ne_nil (le : α → α → Bool) (x : α) (l : List α) :
    insertBy le x l ≠ [] := by
  cases l with
  | nil => simp [insertBy]
  | cons y ys =>
    simp only [insertBy]
    split <;> simp

theorem stableSortBy_eq_nil_iff (le : α → α → Bool) (l : List α) :
    stableSortBy le l = [] ↔ l = [] := by
  cases l with
  | nil => simp [stableSortBy]
  | cons x xs =>
    simp only [stableSortBy]
    constructor
    · intro h; exact absurd h (insertBy_ne_nil le x _)
    · intro h; cases h

theorem mem_insertBy (le : α → α → Bool) (x : α) (l : List α) (y : α) :
    y ∈ insertBy le x l ↔ y = x ∨ y ∈ l := by
  induction l with
  | nil => simp [insertBy]
  | cons z zs ih =>
    simp only [insertBy]
    split
    · simp [List.mem_cons]
    · simp only [List.mem_cons, ih]
      tauto

theorem mem_stableSortBy (le : α → α → Bool) (l : List α) (y : α) :
    y ∈ stableSortBy le l ↔ y ∈ l := by
  induction l with
  | nil => simp [stableSortBy]
  | cons x xs ih =>
    simp only [stableSortBy, mem_insertBy, ih, List.mem_cons]

theorem stableSortBy_head_le (le : α → α → Bool)
    (total : ∀ a b, (le a b || le b a) = true)
    (htrans : ∀ a b c, le a b = true → le b c = true → le a c = true) :
    ∀ (l : List α) (h : α), (stableSortBy le l).head? = some h →
      ∀ y ∈ l, le h y = true := by
  intro l
  induction l with
  | nil => intro h hh; simp [stableSortBy] at hh
  | cons x xs ih =>
    intro h hh y hy
    have hrefl : ∀ a, le a a = true := by
      intro a
      have := total a a
      simpa using this
    cases hs : stableSortBy le xs with
    | nil =>
      have hxs : xs = [] := (stableSortBy_eq_nil_iff le xs).mp hs
      subst hxs
      have hx : x = h := by simpa [stableSortBy, insertBy, List.head?] using hh
      subst hx
      simp only [List.mem_cons, List.not_mem_nil, or_false] at hy
      subst hy
      exact hrefl y
    | cons h2 t =>
      have ih2 : ∀ y ∈ xs, le h2 y = true := by
        intro z hz
        exact ih h2 (by rw [hs]; rfl) z hz
      simp only [stableSortBy, hs, insertBy] at hh
      by_cases hle : le x h2 = true
      · rw [if_pos hle] at hh
        have hx : x = h := by simpa [List.head?] using hh
        subst hx
        rcases List.mem_cons.mp hy with hy1 | hy2
        · subst hy1; exact hrefl y
        · exact htrans _ _ _ hle (ih2 y hy2)
      · rw [if_neg hle] at hh
        have hx : h2 = h := by simpa [List.head?] using hh
        subst hx
        have hge : le h2 x = true := by
          have := total x h2
          cases hxy : le x h2 with
          | true => exact absurd hxy hle
          | false => simpa [hxy] using this
        rcases List.mem_cons.mp hy with hy1 | hy2
        · subst hy1; exact hge
        · exact ih2 y hy2

theorem mem_of_head_eq (l : List α) (a : α) (h : l.head? = some a) : a ∈ l := by
  cases l with
  | nil => cases h
  | cons x xs =>
    have hx : x = a := by simpa [List.head?] using h
    subst hx
    exact List.mem_cons_self x xs

theorem jsDateMs_eq_parse {s : String} (h : (parseISODate s).isSome = true) :
    parseISODate s = some (jsDateMs s) := by
  cases hp : parseISODate s with
  | none => rw [hp] at h; cases h
  | some x => simp [jsDateMs, hp]

theorem visitAfter_total (a b : Visit) : (visitAfter a b || visitAfter b a) = true := by
  simp only [visitAfter, Bool.or_eq_true, decide_eq_true_eq]
  omega

theorem visitAfter_trans (a b c : Visit) :
    visitAfter a b = true → visitAfter b c = true → visitAfter a c = true := by
  simp only [visitAfter, decide_eq_true_eq]
  omega

theorem selectAux (p : Visit → Bool) (vs : List Visit) :
    (vs.filter p = [] →
        (if (vs.filter p).isEmpty then none
         else (stableSortBy visitAfter (vs.filter p)).head?) = none) ∧
    (∀ v, (if (vs.filter p).isEmpty then none
           else (stableSortBy visitAfter (vs.filter p)).head?) = some v →
        p v = true ∧ v ∈ vs ∧
        (vs.filter p).all (fun w => decide (jsDateMs w.date ≤ jsDateMs v.date)) = true) := by
  constructor
  · intro h
    rw [h]
    rfl
  · intro v hv
    by_cases he : (vs.filter p).isEmpty
    · rw [if_pos he] at hv; cases hv
    · rw [if_neg he] at hv
      have hmem : v ∈ vs.filter p := by
        have : v ∈ stableSortBy visitAfter (vs.filter p) := mem_of_head_eq _ _ hv
        exact (mem_stableSortBy _ _ _).mp this
      have hmax : ∀ y ∈ vs.filter p, visitAfter v y = true :=
        stableSortBy_head_le visitAfter visitAfter_total visitAfter_trans _ v hv
      refine ⟨(List.mem_filter.mp hmem).2, (List.mem_filter.mp hmem).1, ?_⟩
      rw [List.all_eq_true]
      intro w hw
      have := hmax w hw
      simpa [visitAfter] using this

theorem fetchMessagesStep_input (leadId : String) (s : PageState) (r : MsgResponse) :
    (fetchMessagesStep leadId s r).input = s.input := by
  unfold fetchMessagesStep
  split
  · rfl
  · cases r <;> rfl

theorem branch4_false (m : Option Json) :
    (isUndefined m && isNullVal m && jsLenZero m) = false := by
  cases m with
  | none => simp [isUndefined, isNullVal]
  | some v => simp [isUndefined]

theorem jsNN_eq_none (o : Option Json) :
    jsNN o = none ↔ o = none ∨ o = some Json.null := by
  cases o with
  | none => simp [jsNN]
  | some v => cases v <;> simp [jsNN]

/-- Claim C4: for every visit collection whose scheduled dates are all
of the modelled UTC ISO forms (date-only, or the Z-suffixed datetimes
the booking modal stores), and every target lead identifier, both
banner resolvers (fetchLatestVisit and loadVisitBanner) return null
rather than an error when no visit matches the lead, and otherwise
select a visit of the collection that matches the lead and whose
scheduled date is maximal among all matches; the selected visit's
date genuinely parses, so its jsDateMs value is the real
epoch-millisecond value of the host Date parse, not the default. -/
theorem latestVisit_selects_max (cur : String) (vs : List Visit)
    (hdates : ∀ w ∈ vs, (parseISODate w.date).isSome = true) :
    ((vs.filter (visitMatches2 cur) = [] → fetchLatestVisitSelect cur vs = none) ∧
      (∀ v, fetchLatestVisitSelect cur vs = some v →
        visitMatches2 cur v = true ∧ v ∈ vs ∧
        parseISODate v.date = some (jsDateMs v.date) ∧
        (vs.filter (visitMatches2 cur)).all
          (fun w => decide (jsDateMs w.date ≤ jsDateMs v.date)) = true)) ∧
    ((vs.filter (visitMatches1 cur) = [] → loadVisitBannerSelect cur vs = none) ∧
      (∀ v, loadVisitBannerSelect cur vs = some v →
        visitMatches1 cur v = true ∧ v ∈ vs ∧
        parseISODate v.date = some (jsDateMs v.date) ∧
        (vs.filter (visitMatches1 cur)).all
          (fun w => decide (jsDateMs w.date ≤ jsDateMs v.date)) = true)) := by
  constructor
  · refine ⟨(selectAux (visitMatches2 cur) vs).1, ?_⟩
    intro v hv
    obtain ⟨h1, h2, h3⟩ := (selectAux (visitMatches2 cur) vs).2 v hv
    exact ⟨h1, h2, jsDateMs_eq_parse (hdates v h2), h3⟩
  · refine ⟨(selectAux (visitMatches1 cur) vs).1, ?_⟩
    intro v hv
    obtain ⟨h1, h2, h3⟩ := (selectAux (visitMatches1 cur) vs).2 v hv
    exact ⟨h1, h2, jsDateMs_eq_parse (hdates v h2), h3⟩

/-- Demo visit of the C4 witness dated 2024-01-01, referencing lead L1
by bare identifier. -/
def c4VisitA : Visit :=
  { _id := "v1", date := "2024-01-01", timeSlot := "morning", visitStatus := "pending",
    familyComing := none, pickupRequired := none, notes := none,
    leadId := some (.str "L1") }

/-- Demo visit of the C4 witness dated 2024-01-03, referencing lead L1
by populated object. -/
def c4VisitB : Visit :=
  { _id := "v2", date := "2024-01-03", timeSlot := "evening", visitStatus := "pending",
    familyComing := none, pickupRequired := none, notes := none,
    leadId := some (.obj [("_id", .str "L1")]) }

/-- Demo visit of the C4 witness dated with the full toISOString-style
datetime the booking modal produces, between the other two dates. -/
def c4VisitC : Visit :=
  { _id := "v3", date := "2024-01-02T15:30:00.000Z", timeSlot := "afternoon",
    visitStatus := "pending", familyComing := none, pickupRequired := none,
    notes := none, leadId := some (.str "L1") }

/-- Witness for C4: for lead-L1 visits dated 2024-01-01, a full
toISOString datetime on 2024-01-02, and 2024-01-03, the resolver
selects the 2024-01-03 entry, with maximality obtained from the claim
theorem; the datetime parses to its real epoch milliseconds; and an
empty collection yields no banner. -/
theorem latestVisit_selects_max_witness :
    fetchLatestVisitSelect "L1" [c4VisitA, c4VisitC, c4VisitB] = some c4VisitB ∧
    c4VisitB.date = "2024-01-03" ∧
    parseISODate "2024-01-02T15:30:00.000Z" = some 1704209400000 ∧
    visitMatches2 "L1" c4VisitB = true ∧
    ([c4VisitA, c4VisitC, c4VisitB].filter (visitMatches2 "L1")).all
      (fun w => decide (jsDateMs w.date ≤ jsDateMs c4VisitB.date)) = true ∧
    fetchLatestVisitSelect "L1" [] = none := by
  have hd : ∀ w ∈ [c4VisitA, c4VisitC, c4VisitB], (parseISODate w.date).isSome = true := by
    decide
  refine ⟨rfl, rfl, rfl, ?_, ?_, ?_⟩
  · exact ((latestVisit_selects_max "L1" [c4VisitA, c4VisitC, c4VisitB] hd).1.2
      c4VisitB rfl).1
  · exact ((latestVisit_selects_max "L1" [c4VisitA, c4VisitC, c4VisitB] hd).1.2
      c4VisitB rfl).2.2.2
  · exact (latestVisit_selects_max "L1" [] (by simp)).1.1 rfl

/-- A visit carrying a given lead reference, used to state the filter
claim over reference shapes. -/
def mkVisit (ref : Option Json) : Visit :=
  { _id := "v", date := "2024-01-01", timeSlot := "morning", visitStatus := "pending",
    familyComing := none, pickupRequired := none, notes := none, leadId := ref }

/-- Claim C5: the visit filters of both resolver revisions accept a
visit whose lead reference is the bare target identifier string and a
visit whose lead reference is an embedded object carrying the target
identifier, while visits with a missing lead reference or a
non-matching identifier are excluded. -/
theorem visitFilter_reference_shapes (cur s : String) (o : Json) (hc : cur ≠ "") :
    (visitMatches1 cur (mkVisit (some (.str cur))) = true ∧
     visitMatches2 cur (mkVisit (some (.str cur))) = true) ∧
    (jsStrEq (o.getProp "_id") cur = true →
       visitMatches1 cur (mkVisit (some o)) = true ∧
       visitMatches2 cur (mkVisit (some o)) = true) ∧
    (visitMatches1 cur (mkVisit none) = false ∧
     visitMatches2 cur (mkVisit none) = false) ∧
    (s ≠ cur →
       visitMatches1 cur (mkVisit (some (.str s))) = false ∧
       visitMatches2 cur (mkVisit (some (.str s))) = false) ∧
    (∀ gs, o = Json.obj gs →
       jsStrEq (o.getProp "_id") cur = false →
       jsStrEq (o.getProp "id") cur = false →
       visitMatches1 cur (mkVisit (some o)) = false ∧
       visitMatches2 cur (mkVisit (some o)) = false) := by
  refine ⟨?_, ?_, ⟨rfl, rfl⟩, ?_, ?_⟩
  · constructor <;> simp [visitMatches1, visitMatches2, mkVisit, Json.truthy, hc]
  · intro h
    cases o <;> simp [jsStrEq, Json.getProp] at h
    constructor <;> simp_all [visitMatches1, visitMatches2, mkVisit, Json.truthy, jsStrEq, Json.getProp]
  · intro hs
    by_cases he : s = ""
    · subst he
      constructor <;> simp [visitMatches1, visitMatches2, mkVisit, Json.truthy]
    · constructor <;> simp [visitMatches1, visitMatches2, mkVisit, Json.truthy, he, hs]
  · intro gs hgs h1 h2
    subst hgs
    constructor <;> simp [visitMatches1, visitMatches2, mkVisit, Json.truthy, h1, h2]

/-- Witness for C5: with target lead L1, a bare-string reference and
an embedded-object reference are both accepted by the fetchLatestVisit
filter, while a missing reference and the non-matching identifier L2
are excluded. -/
theorem visitFilter_reference_shapes_witness :
    visitMatches1 "L1" (mkVisit (some (.str "L1"))) = true ∧
    visitMatches2 "L1" (mkVisit (some (.str "L1"))) = true ∧
    visitMatches1 "L1" (mkVisit (some (.obj [("_id", .str "L1")]))) = true ∧
    visitMatches2 "L1" (mkVisit (some (.obj [("_id", .str "L1")]))) = true ∧
    visitMatches2 "L1" (mkVisit none) = false ∧
    visitMatches2 "L1" (mkVisit (some (.str "L2"))) = false := by
  have h := visitFilter_reference_shapes "L1" "L2" (.obj [("_id", .str "L1")])
    (by decide)
  exact ⟨h.1.1, h.1.2, (h.2.1 rfl).1, (h.2.1 rfl).2, h.2.2.1.2,
    (h.2.2.2.1 (by decide)).2⟩

/-- Claim C8: whatever the prior page state, a non-success HTTP
status, a network failure or an unparseable body of the visits fetch
leaves the whole state (in particular the visit banner) exactly as it
was, in both resolver revisions; no error is surfaced to the
operator. -/
theorem visitBanner_failure_preserves (cur : String) (s : PageState) :
    (∀ st, fetchLatestVisitStep cur s (.httpError st) = s) ∧
    (∀ m, fetchLatestVisitStep cur s (.netError m) = s) ∧
    fetchLatestVisitStep cur s .parseError = s ∧
    (∀ st, loadVisitBannerStep cur s (.httpError st) = s) ∧
    (∀ m, loadVisitBannerStep cur s (.netError m) = s) ∧
    loadVisitBannerStep cur s .parseError = s := by
  refine ⟨fun st => ?_, fun m => ?_, ?_, fun st => rfl, fun m => rfl, rfl⟩ <;>
    · by_cases h : cur = "" <;> simp [fetchLatestVisitStep, h]

/-- Claim C1 (amended): the normalizer never escapes to the page
render; on unparseable input it degrades to the non-fatal view error
string while leaving the previously rendered conversation unchanged
(rather than producing an empty message list), and on a parseable
object payload carrying no non-null messages field and no nested
data.messages field it produces a valid structure whose message list
is empty, with no error signal. -/
theorem fetchMessages_nonfatal_degrade (leadId : String) (s : PageState) (data : Json)
    (hl : leadId ≠ "") :
    (fetchMessagesStep leadId s .invalid
        = { s with error := some "Invalid JSON from messages endpoint", loading := false }) ∧
    (∀ fs, data = Json.obj fs →
      jsNN (data.getProp "messages") = none →
      jsNN (dataDataMessages data) = none →
      fetchMessagesStep leadId s (.parsed data)
        = { s with
              lead := some
                { leadId := (jsNN (data.getProp "leadId")).getD (.str leadId)
                  name := jsNN (data.getProp "name")
                  messages := .arr [] }
              error := none, loading := false }) := by
  constructor
  · simp [fetchMessagesStep, hl]
  · intro fs hfs hm hdm
    subst hfs
    have h2 : jsIsArray ((Json.obj fs).getProp "messages") = false := by
      rcases (jsNN_eq_none _).mp hm with h | h <;> simp [h, jsIsArray]
    have h3 : jsIsArray (some (Json.obj fs)) = false := rfl
    have h4 := branch4_false ((Json.obj fs).getProp "messages")
    have htr : (Json.obj fs).truthy = true := rfl
    simp only [fetchMessagesStep, if_neg hl, normalizeLead, htr, h2, h3, h4]
    simp [hm, hdm]

/-- Counterexample to C1 as stated: with a previously rendered
conversation of one message, an unparseable payload leaves that
non-empty message list in place (no empty-but-valid list is produced)
even though the non-fatal error signal is set. -/
theorem fetchMessages_invalid_keeps_prior :
    (fetchMessagesStep "L1"
        { lead := some
            { leadId := .str "L1", name := none,
              messages := .arr [.obj [("from", .str "lead"), ("text", .str "hi")]] }
          loading := false, error := none, input := "", sending := false,
          latestVisit := none, showVisitModal := false } .invalid).lead
      = some
          { leadId := .str "L1", name := none,
            messages := .arr [.obj [("from", .str "lead"), ("text", .str "hi")]] } ∧
    (Json.arr [.obj [("from", .str "lead"), ("text", .str "hi")]] ≠ Json.arr []) ∧
    (fetchMessagesStep "L1"
        { lead := some
            { leadId := .str "L1", name := none,
              messages := .arr [.obj [("from", .str "lead"), ("text", .str "hi")]] }
          loading := false, error := none, input := "", sending := false,
          latestVisit := none, showVisitModal := false } .invalid).error
      = some "Invalid JSON from messages endpoint" := by
  refine ⟨rfl, ?_, rfl⟩
  intro h
  injection h with h1
  exact List.cons_ne_nil _ _ h1

/-- Witness for C1 (amended): on the unparseable response the step
sets the error and keeps the state, and on the malformed payload
consisting of the single unexpected field foo the produced structure
has the empty message list. -/
theorem fetchMessages_nonfatal_degrade_witness :
    (("L1" : String) ≠ "") ∧
    (fetchMessagesStep "L1"
        { lead := none, loading := false, error := none, input := "", sending := false,
          latestVisit := none, showVisitModal := false } (.parsed (.obj [("foo", .num 1)])))
      = { lead := some { leadId := .str "L1", name := none, messages := .arr [] }
          loading := false, error := none, input := "", sending := false,
          latestVisit := none, showVisitModal := false } := by
  refine ⟨by decide, ?_⟩
  exact (fetchMessages_nonfatal_degrade "L1"
      { lead := none, loading := false, error := none, input := "", sending := false,
        latestVisit := none, showVisitModal := false }
      (.obj [("foo", .num 1)]) (by decide)).2 [("foo", .num 1)] rfl rfl rfl

theorem normalizeLead_obj_leadId (requested : String) (fs : List (String × Json)) :
    (normalizeLead requested (.obj fs)).map (fun ld => ld.leadId)
      = some ((jsNN ((Json.obj fs).getProp "leadId")).getD (.str requested)) := by
  have h3 : jsIsArray (some (Json.obj fs)) = false := rfl
  have h4 := branch4_false ((Json.obj fs).getProp "messages")
  have htr : (Json.obj fs).truthy = true := rfl
  unfold normalizeLead
  rw [htr, h3, h4]
  simp [apply_ite]

/-- Claim C2: on any tolerated successful payload shape (wrapped
object, bare array, or object missing fields) the normalizer returns a
structure whose leadId equals the payload's non-null leadId field when
present and the requested identifier when the payload omits it. -/
theorem normalize_preserves_leadId (requested : String) (data : Json)
    (hshape : (∃ fs, data = Json.obj fs) ∨ (∃ xs, data = Json.arr xs)) :
    (∀ v, jsNN (data.getProp "leadId") = some v →
        (normalizeLead requested data).map (fun ld => ld.leadId) = some v) ∧
    (jsNN (data.getProp "leadId") = none →
        (normalizeLead requested data).map (fun ld => ld.leadId) = some (Json.str requested)) := by
  rcases hshape with ⟨fs, hfs⟩ | ⟨xs, hxs⟩
  · subst hfs
    constructor
    · intro v hv
      rw [normalizeLead_obj_leadId, hv]
      rfl
    · intro hv
      rw [normalizeLead_obj_leadId, hv]
      rfl
  · subst hxs
    constructor
    · intro v hv
      simp [Json.getProp, jsNN] at hv
    · intro hv
      simp [normalizeLead, Json.truthy, jsIsArray, Json.getProp, jsNN]

/-- Witness for C2: a wrapped payload with leadId X keeps X, and a
bare-array payload (no leadId) gets the requested identifier L7. -/
theorem normalize_preserves_leadId_witness :
    jsNN ((Json.obj [("leadId", .str "X"), ("messages", .arr [])]).getProp "leadId")
      = some (.str "X") ∧
    (normalizeLead "L7" (.obj [("leadId", .str "X"), ("messages", .arr [])])).map
      (fun ld => ld.leadId) = some (.str "X") ∧
    jsNN ((Json.arr [.str "m"]).getProp "leadId") = none ∧
    (normalizeLead "L7" (.arr [.str "m"])).map (fun ld => ld.leadId)
      = some (.str "L7") := by
  refine ⟨rfl, ?_, rfl, ?_⟩
  · exact (normalize_preserves_leadId "L7" (.obj [("leadId", .str "X"), ("messages", .arr [])])
      (Or.inl ⟨_, rfl⟩)).1 (.str "X") rfl
  · exact (normalize_preserves_leadId "L7" (.arr [.str "m"])
      (Or.inr ⟨_, rfl⟩)).2 rfl

/-- Claim C3: one resolved fetchMessages round is idempotent on the
page state: applying the step twice with the same response outcome
yields exactly the state of applying it once. -/
theorem fetchMessages_idempotent (leadId : String) (s : PageState) (r : MsgResponse) :
    fetchMessagesStep leadId (fetchMessagesStep leadId s r) r
      = fetchMessagesStep leadId s r := by
  by_cases hl : leadId = ""
  · simp [fetchMessagesStep, hl]
  · cases r <;> simp [fetchMessagesStep, hl]

/-- Claim C6: when the reply input is empty or whitespace-only (its
trim is empty), handleSend issues no network request and returns the
page state completely unchanged. -/
theorem handleSend_blank_noop (leadId : String) (s : PageState) (r : SendResponse)
    (refetch : MsgResponse) (h : jsTrim s.input = "") :
    handleSendStep leadId s r refetch
      = { state := s, replyRequested := false, refetchCount := 0 } := by
  unfold handleSendStep
  simp [h]

/-- Witness for C6: a whitespace-only input issues no request and the
state is returned untouched, whatever response the network would have
given. -/
theorem handleSend_blank_noop_witness :
    jsTrim " \t " = "" ∧
    handleSendStep "L1"
        { lead := none, loading := false, error := none, input := " \t ",
          sending := false, latestVisit := none, showVisitModal := false }
        (.ok "sent") .empty
      = { state := { lead := none, loading := false, error := none, input := " \t ",
                     sending := false, latestVisit := none, showVisitModal := false },
          replyRequested := false, refetchCount := 0 } := by
  refine ⟨rfl, ?_⟩
  exact handleSend_blank_noop "L1"
    { lead := none, loading := false, error := none, input := " \t ",
      sending := false, latestVisit := none, showVisitModal := false }
    (.ok "sent") .empty rfl

/-- Claim C7: for a non-blank reply with a present lead id, a success
response clears the input field and triggers exactly one conversation
re-fetch whose outcome becomes the rendered conversation (no
optimistic local append), while a non-success status surfaces the
send error, keeps the input text intact for retry, and triggers no
re-fetch. -/
theorem handleSend_submit (leadId : String) (s : PageState) (refetch : MsgResponse)
    (ht : jsTrim s.input ≠ "") (hl : leadId ≠ "") :
    (∀ body,
        (handleSendStep leadId s (.ok body) refetch).replyRequested = true ∧
        (handleSendStep leadId s (.ok body) refetch).refetchCount = 1 ∧
        (handleSendStep leadId s (.ok body) refetch).state.input = "" ∧
        (handleSendStep leadId s (.ok body) refetch).state.lead
          = (fetchMessagesStep leadId { s with sending := true, input := "" } refetch).lead) ∧
    (∀ status,
        handleSendStep leadId s (.httpError status) refetch
          = { state := { s with sending := false
                                error := some ("Send failed: " ++ toString status) }
              replyRequested := true, refetchCount := 0 }) := by
  have hcond : ¬(jsTrim s.input = "" ∨ leadId = "") := by
    rintro (h | h)
    · exact ht h
    · exact hl h
  constructor
  · intro body
    refine ⟨?_, ?_, ?_, ?_⟩ <;>
      simp [handleSendStep, hcond, fetchMessagesStep_input]
  · intro status
    simp [handleSendStep, hcond]

/-- Witness for C7: with input hi, a success response leaves an empty
input and one re-fetch, and a 500 response keeps the input and
surfaces the send error. -/
theorem handleSend_submit_witness :
    jsTrim "hi" ≠ "" ∧
    (handleSendStep "L1"
        { lead := none, loading := false, error := none, input := "hi",
          sending := false, latestVisit := none, showVisitModal := false }
        (.ok "sent") .empty).state.input = "" ∧
    (handleSendStep "L1"
        { lead := none, loading := false, error := none, input := "hi",
          sending := false, latestVisit := none, showVisitModal := false }
        (.ok "sent") .empty).refetchCount = 1 ∧
    (handleSendStep "L1"
        { lead := none, loading := false, error := none, input := "hi",
          sending := false, latestVisit := none, showVisitModal := false }
        (.httpError 500) .empty).state.input = "hi" ∧
    (handleSendStep "L1"
        { lead := none, loading := false, error := none, input := "hi",
          sending := false, latestVisit := none, showVisitModal := false }
        (.httpError 500) .empty).state.error = some "Send failed: 500" := by
  have h := handleSend_submit "L1"
    { lead := none, loading := false, error := none, input := "hi",
      sending := false, latestVisit := none, showVisitModal := false }
    .empty (by decide) (by decide)
  refine ⟨by decide, (h.1 "sent").2.2.1, (h.1 "sent").2.1, ?_, ?_⟩
  · rw [h.2 500]
  · rw [h.2 500]
    rfl

/-- The literal 0% is the zero percentage string. -/
theorem zeroPct : ("0%" : String) = toString (0 : Nat) ++ "%" := rfl

/-- Claim C9: each insights percentage helper returns the literal 0%
when its denominator is zero and the rounded ratio as a percent
string otherwise; in every case the display value is a numeral
followed by a percent sign, never NaN or undefined. -/
theorem insights_pct_guarded (m : Metrics) :
    (m.totalLeads = 0 → hotShare m = "0%" ∧ fakeRate m = "0%") ∧
    (m.whatsappIn = 0 → aiReplyCoverage m = "0%") ∧
    (0 < m.totalLeads →
        hotShare m = toString (roundPct m.hotLeads m.totalLeads) ++ "%" ∧
        fakeRate m = toString (roundPct m.fakeLeads m.totalLeads) ++ "%") ∧
    (0 < m.whatsappIn →
        aiReplyCoverage m = toString (roundPct m.whatsappOutAI m.whatsappIn) ++ "%") ∧
    (∃ a : Nat, hotShare m = toString a ++ "%") ∧
    (∃ b : Nat, fakeRate m = toString b ++ "%") ∧
    (∃ c : Nat, aiReplyCoverage m = toString c ++ "%") := by
  refine ⟨?_, ?_, ?_, ?_, ?_, ?_, ?_⟩
  · intro h
    constructor <;> simp [hotShare, fakeRate, h]
  · intro h
    simp [aiReplyCoverage, h]
  · intro h
    constructor <;> simp [hotShare, fakeRate, h]
  · intro h
    simp [aiReplyCoverage, h]
  · by_cases h : 0 < m.totalLeads
    · exact ⟨roundPct m.hotLeads m.totalLeads, by simp [hotShare, h]⟩
    · exact ⟨0, by rw [← zeroPct]; simp [hotShare]; omega⟩
  · by_cases h : 0 < m.totalLeads
    · exact ⟨roundPct m.fakeLeads m.totalLeads, by simp [fakeRate, h]⟩
    · exact ⟨0, by rw [← zeroPct]; simp [fakeRate]; omega⟩
  · by_cases h : 0 < m.whatsappIn
    · exact ⟨roundPct m.whatsappOutAI m.whatsappIn, by simp [aiReplyCoverage, h]⟩
    · exact ⟨0, by rw [← zeroPct]; simp [aiReplyCoverage]; omega⟩

/-- All-zero metrics object of the C9 witness. -/
def c9Zero : Metrics :=
  { totalLeads := 0, hotLeads := 0, warmLeads := 0, coldLeads := 0, fakeLeads := 0,
    convertedLeads := 0, conversionRate := 0, followupsSent := 0,
    followupsScheduled := 0, whatsappIn := 0, whatsappOutAI := 0, stageChanges := 0 }

/-- Non-degenerate metrics object of the C9 witness: 1 of 4 leads hot,
1 AI reply to 2 incoming messages. -/
def c9Demo : Metrics :=
  { totalLeads := 4, hotLeads := 1, warmLeads := 2, coldLeads := 1, fakeLeads := 0,
    convertedLeads := 1, conversionRate := 25, followupsSent := 3,
    followupsScheduled := 5, whatsappIn := 2, whatsappOutAI := 1, stageChanges := 2 }

/-- Witness for C9: on all-zero metrics every helper prints 0%, and on
the demo metrics the helpers print the rounded percentages. -/
theorem insights_pct_guarded_witness :
    hotShare c9Zero = "0%" ∧ fakeRate c9Zero = "0%" ∧ aiReplyCoverage c9Zero = "0%" ∧
    hotShare c9Demo = toString (roundPct 1 4) ++ "%" ∧
    aiReplyCoverage c9Demo = toString (roundPct 1 2) ++ "%" ∧
    hotShare c9Demo = "25%" ∧ aiReplyCoverage c9Demo = "50%" := by
  refine ⟨((insights_pct_guarded c9Zero).1 rfl).1, ((insights_pct_guarded c9Zero).1 rfl).2,
    (insights_pct_guarded c9Zero).2.1 rfl, ?_, ?_, rfl, rfl⟩
  · exact ((insights_pct_guarded c9Demo).2.2.1 (by decide)).1
  · exact (insights_pct_guarded c9Demo).2.2.2.1 (by decide)

/-- Claim C10: the booking submission invokes onSuccess exactly when
both the HTTP status is success and the body's ok field is truthy; an
ok status with a falsy ok field (including a non-JSON body coerced to
the empty object) is a failure that surfaces the backend-provided
error string when one is present; and an empty date is rejected
locally with an error message and no network request. -/
theorem booking_submit_semantics (f : BookingForm) (r : BookResponse) :
    (f.date = "" →
        handleSubmitStep f r
          = { error := some "Please pick a date and time slot.",
              requested := false, succeeded := false }) ∧
    (∀ ok status body, f.date ≠ "" → f.timeSlot ≠ "" →
        ((handleSubmitStep f (.resp ok status body)).succeeded = true ↔
            ok = true ∧ jsTruthyOpt ((body.getD (.obj [])).getProp "ok") = true) ∧
        ((handleSubmitStep f (.resp ok status body)).succeeded = true →
            (handleSubmitStep f (.resp ok status body)).error = none) ∧
        (jsTruthyOpt ((body.getD (.obj [])).getProp "ok") = false →
            (handleSubmitStep f (.resp ok status body)).succeeded = false ∧
            (handleSubmitStep f (.resp ok status body)).requested = true) ∧
        (∀ e, e ≠ "" →
            (body.getD (.obj [])).getProp "error" = some (.str e) →
            jsTruthyOpt ((body.getD (.obj [])).getProp "ok") = false →
            (handleSubmitStep f (.resp ok status body)).error = some e)) := by
  constructor
  · intro h
    simp [handleSubmitStep, h]
  · intro ok status body hd ht
    have hcond : ¬(f.date = "" ∨ f.timeSlot = "") := by
      rintro (h | h)
      · exact hd h
      · exact ht h
    refine ⟨?_, ?_, ?_, ?_⟩
    · by_cases hok : ok = true
      · by_cases hfield : jsTruthyOpt ((body.getD (.obj [])).getProp "ok") = true
        · simp [handleSubmitStep, hcond, hok, hfield]
        · simp only [Bool.not_eq_true] at hfield
          simp [handleSubmitStep, hcond, hok, hfield]
      · simp only [Bool.not_eq_true] at hok
        simp [handleSubmitStep, hcond, hok]
    · intro hs
      by_cases hok : ok = true
      · by_cases hfield : jsTruthyOpt ((body.getD (.obj [])).getProp "ok") = true
        · simp [handleSubmitStep, hcond, hok, hfield]
        · simp only [Bool.not_eq_true] at hfield
          simp [handleSubmitStep, hcond, hok, hfield] at hs
      · simp only [Bool.not_eq_true] at hok
        simp [handleSubmitStep, hcond, hok] at hs
    · intro hfield
      constructor <;> simp [handleSubmitStep, hcond, hfield]
    · intro e he hprop hfield
      have htr : (Json.str e).truthy = true := by
        simp [Json.truthy, he]
      simp [handleSubmitStep, hcond, hfield, hprop, htr, jsToString, he]

/-- Witness for C10: an empty date is rejected locally without a
request; an HTTP-200 response whose body has ok false and error
string is treated as failure with that string surfaced and no
success; and an ok body yields success. -/
theorem booking_submit_semantics_witness :
    handleSubmitStep
        { date := "", timeSlot := "morning", familyComing := false,
          pickupRequired := false, notes := "" }
        (.resp true 200 (some (.obj [("ok", .bool true)])))
      = { error := some "Please pick a date and time slot.",
          requested := false, succeeded := false } ∧
    (handleSubmitStep
        { date := "2024-05-01T10:00", timeSlot := "morning", familyComing := false,
          pickupRequired := false, notes := "" }
        (.resp true 200 (some (.obj [("ok", .bool false), ("error", .str "slot taken")])))).succeeded
      = false ∧
    (handleSubmitStep
        { date := "2024-05-01T10:00", timeSlot := "morning", familyComing := false,
          pickupRequired := false, notes := "" }
        (.resp true 200 (some (.obj [("ok", .bool false), ("error", .str "slot taken")])))).error
      = some "slot taken" ∧
    (handleSubmitStep
        { date := "2024-05-01T10:00", timeSlot := "morning", familyComing := false,
          pickupRequired := false, notes := "" }
        (.resp true 200 (some (.obj [("ok", .bool true)])))).succeeded
      = true := by
  have h1 := (booking_submit_semantics
      { date := "", timeSlot := "morning", familyComing := false,
        pickupRequired := false, notes := "" }
      (.resp true 200 (some (.obj [("ok", .bool true)])))).1 rfl
  have h2 := (booking_submit_semantics
      { date := "2024-05-01T10:00", timeSlot := "morning", familyComing := false,
        pickupRequired := false, notes := "" }
      (.resp true 200 (some (.obj [("ok", .bool false), ("error", .str "slot taken")])))).2
      true 200 (some (.obj [("ok", .bool false), ("error", .str "slot taken")]))
      (by decide) (by decide)
  have h3 := (booking_submit_semantics
      { date := "2024-05-01T10:00", timeSlot := "morning", familyComing := false,
        pickupRequired := false, notes := "" }
      (.resp true 200 (some (.obj [("ok", .bool true)])))).2
      true 200 (some (.obj [("ok", .bool true)]))
      (by decide) (by decide)
  refine ⟨h1, (h2.2.2.1 rfl).1, h2.2.2.2 "slot taken" (by decide) rfl rfl, ?_⟩
  exact h3.1.mpr ⟨rfl, rfl⟩
